import Mathlib

/-!
Shallow embedding of the ProSets marketplace backend's secure
download-issuance and payment-settlement subsystem:
`DownloadsService.generateDownloadUrl` / `canDownload`
(src/modules/downloads/downloads.service.ts),
`PaymentsService.createCheckoutSession` / `handleWebhook` /
`handleCheckoutComplete` / `handlePaymentFailed`
(src/modules/payments/payments.service.ts),
`GenerateDownloadDto` validation and the Prisma-backed relational state.

Database rows are Lean structures; a `DB` value is the visible relational
state; each Prisma call is a function on `DB`. Monetary amounts are `Rat`
(Prisma `Decimal`; the JS division `amount / 100` is exact rational here).
Timestamps are `Int` milliseconds, as in `Date.now()`. NestJS exceptions
become the `ApiError` sum type; a thrown exception is an `Except.error`;
each `throw` short-circuits exactly as in the source, so the services are
written as nested matches with one branch per early `throw`.
Database calls that can reject at runtime are modelled with a `Fault`
oracle saying which call, if any, fails during a webhook delivery; the
`try`/`catch` placement of the source is reproduced exactly (the
checkout-completion handler rethrows, the payment-failure handler
swallows, and a failure after `order.update` leaves that update
persisted).
-/

/-- Order lifecycle status (Prisma enum). -/
inductive OrderStatus
  | PENDING
  | PAID
  | FAILED
deriving DecidableEq, Repr

/-- Payment settlement status (Prisma enum). -/
inductive PaymentStatus
  | PENDING
  | SUCCEEDED
  | FAILED
  | REFUNDED
deriving DecidableEq, Repr

/-- Asset lifecycle status (Prisma enum). -/
inductive AssetStatus
  | ACTIVE
  | INACTIVE
deriving DecidableEq, Repr

/-- NestJS HTTP exception taxonomy as thrown by the two services;
`Internal` stands for an unexpected runtime error from a database or
external-SDK call (anything that is not one of the typed HttpExceptions). -/
inductive ApiError
  | NotFound (msg : String)
  | Forbidden (msg : String)
  | BadRequest (msg : String)
  | Conflict (msg : String)
  | Internal
deriving DecidableEq, Repr

/-- True exactly on the two error kinds the entitlement gate may raise. -/
def ApiError.isForbiddenOrNotFound : ApiError → Bool
  | ApiError.NotFound _ => true
  | ApiError.Forbidden _ => true
  | _ => false

/-- Row of the `users` table. -/
structure User where
  id : Nat
  auth0Id : String
  email : String
deriving DecidableEq, Repr

/-- Row of the `assets` table (the fields the subsystem reads). -/
structure Asset where
  id : Nat
  vendorId : Nat
  vendorName : String
  title : String
  category : String
  price : Rat
  status : AssetStatus
  deletedAt : Option Int
  sourceFileKey : String
  downloads : Nat
deriving DecidableEq, Repr

/-- Row of the `orders` table. -/
structure Order where
  id : Nat
  userId : Nat
  assetId : Nat
  totalAmount : Rat
  status : OrderStatus
  createdAt : Int
  stripeSessionId : Option String
deriving DecidableEq, Repr

/-- Row of the `payments` table. -/
structure Payment where
  orderId : Nat
  stripePaymentId : String
  amount : Rat
  status : PaymentStatus
deriving DecidableEq, Repr

/-- Row of the `downloads` table (append-only event log). -/
structure Download where
  userId : Nat
  assetId : Nat
  createdAt : Int
deriving DecidableEq, Repr

/-- The relational state visible to the subsystem. `nextOrderId` models
the id the database assigns to the next created `orders` row. -/
structure DB where
  users : List User
  assets : List Asset
  orders : List Order
  payments : List Payment
  downloads : List Download
  nextOrderId : Nat
deriving DecidableEq, Repr

/-- Model of `prisma.user.findUnique({ where: { auth0Id } })`. -/
def findUserByAuth0Id (db : DB) (auth0Id : String) : Option User :=
  db.users.find? (fun u => decide (u.auth0Id = auth0Id))

/-- Model of `prisma.asset.findUnique({ where: { id } })`. -/
def findAssetById (db : DB) (assetId : Nat) : Option Asset :=
  db.assets.find? (fun a => decide (a.id = assetId))

/-- Model of `prisma.order.findUnique({ where: { id } })`. -/
def findOrderById (db : DB) (orderId : Nat) : Option Order :=
  db.orders.find? (fun o => decide (o.id = orderId))

/-- Select the row with the greatest `createdAt` among a list — the result
of `findFirst({ ..., orderBy: { createdAt: 'desc' } })` on the filtered
rows. -/
def pickLatest : List Order → Option Order
  | [] => none
  | o :: rest =>
    match pickLatest rest with
    | none => some o
    | some m => if o.createdAt ≥ m.createdAt then some o else some m

/-- Model of `prisma.order.findFirst({ where: { userId, assetId },
orderBy: { createdAt: 'desc' } })` in `generateDownloadUrl` step 3. -/
def latestOrderFor (db : DB) (userId assetId : Nat) : Option Order :=
  pickLatest (db.orders.filter (fun o => decide (o.userId = userId ∧ o.assetId = assetId)))

/-- Model of `prisma.order.findFirst({ where: { userId, assetId, status:
'PAID' } })`. -/
def findPaidOrder (db : DB) (userId assetId : Nat) : Option Order :=
  db.orders.find? (fun o =>
    decide (o.userId = userId ∧ o.assetId = assetId ∧ o.status = OrderStatus.PAID))

/-- Model of `prisma.download.count({ where: { userId, assetId, createdAt:
{ gte: cutoff } } })` — the boundary is `gte`, so a row whose `createdAt`
equals the cutoff still counts. -/
def countRecentDownloads (db : DB) (userId assetId : Nat) (cutoff : Int) : Nat :=
  (db.downloads.filter (fun d =>
    decide (d.userId = userId ∧ d.assetId = assetId ∧ cutoff ≤ d.createdAt))).length

/-- JS `x || d` on a possibly-undefined number: `undefined` and `0` are
falsy and fall through to the default. -/
def jsOrDefault (x : Option Nat) (d : Nat) : Nat :=
  match x with
  | none => d
  | some v => if v = 0 then d else v

/-- Model of `assetsService.incrementDownloads(id)`, i.e.
`prisma.asset.update({ where: { id }, data: { downloads: { increment: 1 } } })`. -/
def incrementAssetDownloads (assets : List Asset) (assetId : Nat) : List Asset :=
  assets.map (fun a => if a.id = assetId then { a with downloads := a.downloads + 1 } else a)

/-- Model of `storageService.getPresignedUrl(key, expiration)` — the S3
gateway is a deterministic URL minter from the object key and the expiry. -/
def presignedUrl (key : String) (expiration : Nat) : String :=
  "https://s3/" ++ key ++ "?expires=" ++ toString expiration

/-- Constant `MAX_DOWNLOADS_PER_HOUR` of `DownloadsService`. -/
def MAX_DOWNLOADS_PER_HOUR : Nat := 5

/-- Constant `DEFAULT_EXPIRATION` (seconds) of `DownloadsService`. -/
def DEFAULT_EXPIRATION : Nat := 300

/-- Constant `MAX_EXPIRATION` (seconds) of `DownloadsService`. -/
def MAX_EXPIRATION : Nat := 3600

/-- Success payload of `generateDownloadUrl` (the `asset` summary is
flattened into the four denormalized fields the source returns). -/
structure DownloadResult where
  url : String
  expiresAt : Int
  expiresIn : Nat
  assetId : Nat
  assetTitle : String
  assetCategory : String
  assetVendor : String
deriving DecidableEq, Repr

/-- Model of `DownloadsService.generateDownloadUrl(auth0Id, assetId,
expirationSeconds?)`. `now` is `Date.now()` in milliseconds. Returns the
response payload and the updated database (appended `downloads` row,
incremented asset counter), or the thrown `ApiError`. Each early branch is
one `throw` of the source, in source order. -/
def generateDownloadUrl (db : DB) (now : Int) (auth0Id : String) (assetId : Nat)
    (expirationSeconds : Option Nat) : Except ApiError (DownloadResult × DB) :=
  -- 1. Get user
  match findUserByAuth0Id db auth0Id with
  | none => Except.error (ApiError.NotFound "User not found")
  | some user =>
    -- 2. Check if asset exists
    match findAssetById db assetId with
    | none => Except.error (ApiError.NotFound "Asset not found")
    | some asset =>
      if asset.deletedAt.isSome then
        Except.error (ApiError.NotFound "This asset has been removed")
      else
        -- 3. Check if user owns this asset (has a PAID order)
        match latestOrderFor db user.id asset.id with
        | none => Except.error (ApiError.Forbidden "You do not own this asset")
        | some order =>
          if order.status = OrderStatus.PENDING then
            Except.error (ApiError.Forbidden
              "Payment not confirmed yet. Please wait for payment confirmation.")
          else if order.status = OrderStatus.FAILED then
            Except.error (ApiError.Forbidden "Payment failed. Please purchase the asset again.")
          else if order.status ≠ OrderStatus.PAID then
            Except.error (ApiError.Forbidden "You do not have access to download this asset")
          else
            -- 4. Check rate limiting (max 5 downloads per hour)
            if countRecentDownloads db user.id asset.id (now - 60 * 60 * 1000)
                ≥ MAX_DOWNLOADS_PER_HOUR then
              Except.error (ApiError.Conflict
                "Download limit exceeded. You can download this asset 5 times per hour. Please try again later.")
            else
              -- 5. Validate expiration (the service checks only the maximum)
              let expiration := jsOrDefault expirationSeconds DEFAULT_EXPIRATION
              if expiration > MAX_EXPIRATION then
                Except.error (ApiError.BadRequest
                  "Expiration cannot exceed 3600 seconds (60 minutes)")
              else
                -- 6. Generate presigned URL; 7. Log download; 8. Increment counter
                Except.ok
                  ({ url := presignedUrl asset.sourceFileKey expiration
                     expiresAt := now + (expiration : Int) * 1000
                     expiresIn := expiration
                     assetId := asset.id
                     assetTitle := asset.title
                     assetCategory := asset.category
                     assetVendor := asset.vendorName },
                   { db with
                       downloads := db.downloads
                         ++ [{ userId := user.id, assetId := asset.id, createdAt := now }]
                       assets := incrementAssetDownloads db.assets asset.id })

/-- Model of `DownloadsService.canDownload(auth0Id, assetId)`: true iff
the user resolves and some PAID order for the pair exists. -/
def canDownload (db : DB) (auth0Id : String) (assetId : Nat) : Bool :=
  match findUserByAuth0Id db auth0Id with
  | none => false
  | some user => (findPaidOrder db user.id assetId).isSome

/-- Validation of `GenerateDownloadDto.expirationSeconds`:
`@IsOptional() @IsInt() @Min(60)` — there is no `@Max` on the DTO; the
global `ValidationPipe` turns a violation into a `BadRequestException`.
The input is already integral here, so only the minimum is checked. -/
def validateGenerateDownloadDto (expirationSeconds : Option Nat) : Except ApiError Unit :=
  match expirationSeconds with
  | none => Except.ok ()
  | some v =>
    if v < 60 then Except.error (ApiError.BadRequest "Expiration must be at least 60 seconds")
    else Except.ok ()

/-- Model of `POST /downloads/generate/:assetId`: the `ValidationPipe`
validates the DTO before the controller calls the service. -/
def generateDownloadEndpoint (db : DB) (now : Int) (auth0Id : String) (assetId : Nat)
    (expirationSeconds : Option Nat) : Except ApiError (DownloadResult × DB) :=
  match validateGenerateDownloadDto expirationSeconds with
  | Except.error e => Except.error e
  | Except.ok _ => generateDownloadUrl db now auth0Id assetId expirationSeconds

/-- Which database call, if any, fails at runtime during a single webhook
delivery. Any `await`ed Prisma call can reject; the oracle makes exactly
one kind of call reject, to exercise the source's `try`/`catch`
placement. -/
inductive Fault
  | noFault
  | failOrderUpdate
  | failPaymentCreate
deriving DecidableEq, Repr

/-- Model of `prisma.order.update({ where: { id }, data: { status } })`:
rejects with the injected fault, or with Prisma's record-not-found error
when no row has the id; otherwise updates the matching row. -/
def orderUpdateStatus (fault : Fault) (orders : List Order) (orderId : Nat)
    (st : OrderStatus) : Except ApiError (List Order) :=
  if fault = Fault.failOrderUpdate then Except.error ApiError.Internal
  else if orders.any (fun o => decide (o.id = orderId)) then
    Except.ok (orders.map (fun o => if o.id = orderId then { o with status := st } else o))
  else Except.error ApiError.Internal

/-- Model of `prisma.payment.create({ data })`: rejects with the injected
fault, otherwise appends the row. -/
def paymentCreate (fault : Fault) (payments : List Payment) (p : Payment) :
    Except ApiError (List Payment) :=
  if fault = Fault.failPaymentCreate then Except.error ApiError.Internal
  else Except.ok (payments ++ [p])

/-- A Stripe webhook event after `constructWebhookEvent` parsed it: the
dispatch key (`event.type`) plus the fields each handler reads. Metadata
order ids are `Option Nat` (`none` = missing/empty `metadata.orderId`).
The `amount` on a failed payment intent is the processor-reported amount
in cents. -/
inductive StripeEvent
  | checkoutSessionCompleted (metadataOrderId : Option Nat) (paymentIntent : String)
  | paymentIntentSucceeded (id : String)
  | paymentIntentFailed (metadataOrderId : Option Nat) (id : String) (amount : Int)
  | otherEvent (eventType : String)
deriving DecidableEq, Repr

/-- Model of `PaymentsService.handleCheckoutComplete(session)`. Returns
the state after the delivery together with the error it rethrows, if any:
the source's `catch` logs and rethrows, and a failure after
`order.update` leaves that update persisted. -/
def handleCheckoutComplete (fault : Fault) (db : DB) (metadataOrderId : Option Nat)
    (paymentIntent : String) : DB × Option ApiError :=
  match metadataOrderId with
  | none => (db, none)    -- missing orderId: log and return
  | some orderId =>
    -- 1. Find the order
    match findOrderById db orderId with
    | none => (db, none)  -- order not found: log and return
    | some order =>
      -- 2. Idempotency gate: already PAID → skip
      if order.status = OrderStatus.PAID then (db, none)
      else
        -- 3. Update order status to PAID
        match orderUpdateStatus fault db.orders orderId OrderStatus.PAID with
        | Except.error e => (db, some e)
        | Except.ok orders1 =>
          -- 4. Create payment record with the order's captured amount
          match paymentCreate fault db.payments
              { orderId := orderId, stripePaymentId := paymentIntent,
                amount := order.totalAmount, status := PaymentStatus.SUCCEEDED } with
          | Except.error e => ({ db with orders := orders1 }, some e)
          | Except.ok payments1 => ({ db with orders := orders1, payments := payments1 }, none)

/-- Model of `PaymentsService.handlePaymentFailed(paymentIntent)`. The
source's `catch` logs and swallows every error, so the delivery never
throws; a failure after `order.update` still leaves that update
persisted. There is no status check: the order is set to FAILED
unconditionally, and the payment amount is the processor-reported cents
divided by 100, not the order snapshot. -/
def handlePaymentFailed (fault : Fault) (db : DB) (metadataOrderId : Option Nat)
    (intentId : String) (amountCents : Int) : DB :=
  match metadataOrderId with
  | none => db            -- missing orderId: log and return
  | some orderId =>
    match orderUpdateStatus fault db.orders orderId OrderStatus.FAILED with
    | Except.error _ => db
    | Except.ok orders1 =>
      match paymentCreate fault db.payments
          { orderId := orderId, stripePaymentId := intentId,
            amount := (amountCents : Rat) / 100, status := PaymentStatus.FAILED } with
      | Except.error _ => { db with orders := orders1 }
      | Except.ok payments1 => { db with orders := orders1, payments := payments1 }

/-- The webhook acknowledgement `{ received: true }`. -/
structure Ack where
  received : Bool
deriving DecidableEq, Repr

/-- Model of `PaymentsService.handleWebhook(payload, signature)`.
`sigValid` is whether `stripeService.constructWebhookEvent` accepts the
raw payload and signature (on failure it throws
`BadRequestException('Invalid webhook signature')`). Returns the state
after the delivery and either the acknowledgement or the error the
handler throws: the outer `catch` logs and rethrows whatever escapes the
dispatch. -/
def handleWebhook (fault : Fault) (db : DB) (sigValid : Bool) (event : StripeEvent) :
    DB × Except ApiError Ack :=
  if ¬ sigValid then
    (db, Except.error (ApiError.BadRequest "Invalid webhook signature"))
  else
    match event with
    | StripeEvent.checkoutSessionCompleted metadataOrderId paymentIntent =>
      match handleCheckoutComplete fault db metadataOrderId paymentIntent with
      | (db1, none) => (db1, Except.ok { received := true })
      | (db1, some e) => (db1, Except.error e)
    | StripeEvent.paymentIntentSucceeded _ => (db, Except.ok { received := true })
    | StripeEvent.paymentIntentFailed metadataOrderId intentId amountCents =>
      (handlePaymentFailed fault db metadataOrderId intentId amountCents,
       Except.ok { received := true })
    | StripeEvent.otherEvent _ => (db, Except.ok { received := true })

/-- State after `n` successive deliveries of the same event, each with a
valid signature and no injected fault. -/
def iterateWebhook (event : StripeEvent) : Nat → DB → DB
  | 0, db => db
  | n + 1, db => iterateWebhook event n (handleWebhook Fault.noFault db true event).1

/-- Number of `payments` rows for the order with the given status. -/
def paymentCount (db : DB) (orderId : Nat) (st : PaymentStatus) : Nat :=
  (db.payments.filter (fun p => decide (p.orderId = orderId ∧ p.status = st))).length

/-- Success payload of `createCheckoutSession`. -/
structure CheckoutResult where
  sessionId : String
  url : String
  orderId : Nat
deriving DecidableEq, Repr

/-- Model of `stripeService.createCheckoutSession(...)` — the Stripe
gateway is a deterministic session minter from the order id. -/
def stripeSessionFor (orderId : Nat) : String × String :=
  ("cs_" ++ toString orderId, "https://checkout.stripe/cs_" ++ toString orderId)

/-- The PENDING order row `createCheckoutSession` inserts: new id,
buyer, asset, snapshotted price. -/
def newPendingOrder (db : DB) (now : Int) (userId assetId : Nat) (price : Rat) : Order :=
  { id := db.nextOrderId, userId := userId, assetId := assetId, totalAmount := price,
    status := OrderStatus.PENDING, createdAt := now, stripeSessionId := none }

/-- Per-row effect of `prisma.order.update({ where: { id }, data:
{ stripeSessionId } })`. -/
def attachSessionId (orderId : Nat) (sid : String) (o : Order) : Order :=
  if o.id = orderId then { o with stripeSessionId := some sid } else o

/-- Model of `PaymentsService.createCheckoutSession(auth0Id, dto)`. `now`
is `Date.now()` in milliseconds. A recent PENDING order (within the last
30 minutes) is looked up and logged but has no effect on the outcome, so
the lookup is elided. Each early branch is one `throw` of the source, in
source order. -/
def createCheckoutSession (db : DB) (now : Int) (auth0Id : String) (assetId : Nat) :
    Except ApiError (CheckoutResult × DB) :=
  -- 1. Get user
  match findUserByAuth0Id db auth0Id with
  | none => Except.error (ApiError.NotFound "User not found")
  | some user =>
    -- 2. Check if asset exists and is ACTIVE
    match findAssetById db assetId with
    | none => Except.error (ApiError.NotFound "Asset not found")
    | some asset =>
      if asset.status ≠ AssetStatus.ACTIVE then
        Except.error (ApiError.BadRequest "Asset is not available for purchase")
      else if asset.deletedAt.isSome then
        Except.error (ApiError.BadRequest "Asset has been deleted")
      -- 3. Check if user is trying to buy their own asset
      else if asset.vendorId = user.id then
        Except.error (ApiError.BadRequest "You cannot purchase your own asset")
      -- 4. Check if user already owns this asset
      else if (findPaidOrder db user.id asset.id).isSome then
        Except.error (ApiError.Conflict "You already own this asset")
      else
        -- 5. Pending orders are looked up and logged only
        -- 6. Create order with PENDING status
        let order := newPendingOrder db now user.id asset.id asset.price
        -- 7. Create Stripe checkout session; 8. Update order with session ID
        let sid := (stripeSessionFor order.id).1
        Except.ok
          ({ sessionId := sid, url := (stripeSessionFor order.id).2, orderId := order.id },
           { db with
               orders := (db.orders ++ [order]).map (attachSessionId order.id sid)
               nextOrderId := db.nextOrderId + 1 })

/-- Test fixture: a buyer. -/
def userAlice : User :=
  { id := 1, auth0Id := "auth0|alice", email := "alice@example.com" }

/-- Test fixture: an ACTIVE, not-deleted asset sold by vendor 2 at 29.99. -/
def assetBrick : Asset :=
  { id := 10, vendorId := 2, vendorName := "Vince", title := "Brick Pack",
    category := "Textures", price := (2999 : Rat) / 100, status := AssetStatus.ACTIVE,
    deletedAt := none, sourceFileKey := "assets/brick.zip", downloads := 0 }

/-- Test fixture: an ACTIVE asset that was soft-deleted. -/
def assetGone : Asset :=
  { assetBrick with id := 11, deletedAt := some 50 }

/-- Test fixture: Alice's PAID order for the brick asset. -/
def orderPaid : Order :=
  { id := 1, userId := 1, assetId := 10, totalAmount := (2999 : Rat) / 100,
    status := OrderStatus.PAID, createdAt := 100, stripeSessionId := none }

/-- Test fixture: Alice's later PENDING order for the same asset. -/
def orderPendingNewer : Order :=
  { orderPaid with id := 2, status := OrderStatus.PENDING, createdAt := 200 }

/-- Test fixture: state with an older PAID order and a newer PENDING order
for the same (user, asset) pair. -/
def dbLatestPending : DB :=
  { users := [userAlice], assets := [assetBrick], orders := [orderPaid, orderPendingNewer],
    payments := [], downloads := [], nextOrderId := 3 }

/-- Test fixture: state with a PAID order and five download rows all
created at time 0. -/
def dbRateLimited : DB :=
  { users := [userAlice], assets := [assetBrick], orders := [orderPaid],
    payments := [],
    downloads := List.replicate 5 { userId := 1, assetId := 10, createdAt := 0 },
    nextOrderId := 2 }

/-- Test fixture: state with a single PAID order and no downloads. -/
def dbPaidOrder : DB :=
  { users := [userAlice], assets := [assetBrick], orders := [orderPaid],
    payments := [], downloads := [], nextOrderId := 2 }

/-- Test fixture: state whose only order is PENDING. -/
def dbPendingOrder : DB :=
  { users := [userAlice], assets := [assetBrick],
    orders := [{ orderPaid with status := OrderStatus.PENDING }],
    payments := [], downloads := [], nextOrderId := 2 }

/-- Test fixture: state whose only asset is soft-deleted (and ACTIVE). -/
def dbDeletedAsset : DB :=
  { users := [userAlice], assets := [assetGone], orders := [],
    payments := [], downloads := [], nextOrderId := 1 }

/-- Test fixture: state with a user and an ACTIVE asset but no orders. -/
def dbFresh : DB :=
  { users := [userAlice], assets := [assetBrick], orders := [],
    payments := [], downloads := [], nextOrderId := 1 }

/-- The row `pickLatest` selects is one of the rows it was given. -/
theorem pickLatest_mem {l : List Order} {o : Order} (h : pickLatest l = some o) : o ∈ l := by
  induction l with
  | nil => simp [pickLatest] at h
  | cons a rest ih =>
    cases hr : pickLatest rest with
    | none =>
      simp only [pickLatest, hr] at h
      injection h with h
      exact h ▸ List.mem_cons_self a rest
    | some m =>
      simp only [pickLatest, hr] at h
      by_cases hc : a.createdAt ≥ m.createdAt
      · rw [if_pos hc] at h
        injection h with h
        exact h ▸ List.mem_cons_self a rest
      · rw [if_neg hc] at h
        injection h with h
        exact List.mem_cons_of_mem a (ih (h ▸ hr))

/-- The latest order for a pair is an order of the database for that pair. -/
theorem latestOrderFor_spec {db : DB} {uid aid : Nat} {o : Order}
    (h : latestOrderFor db uid aid = some o) :
    o ∈ db.orders ∧ o.userId = uid ∧ o.assetId = aid := by
  have hm := pickLatest_mem h
  rw [List.mem_filter] at hm
  exact ⟨hm.1, by simpa using hm.2⟩

/-- An asset found by id has that id. -/
theorem findAssetById_id {db : DB} {aid : Nat} {a : Asset}
    (h : findAssetById db aid = some a) : a.id = aid := by
  have := List.find?_some h
  simpa using this

/-- A successful `find?` by id implies `any` by id. -/
theorem any_of_find? {l : List Order} {oid : Nat} {o : Order}
    (h : l.find? (fun x => decide (x.id = oid)) = some o) :
    (l.any fun x => decide (x.id = oid)) = true := by
  rw [List.any_eq_true]
  refine ⟨o, List.mem_of_find?_eq_some h, ?_⟩
  have hp := List.find?_some h
  exact hp

/-- Updating the status of the row with a given id commutes with looking
that id up: the lookup afterwards returns the before-row with the new
status. -/
theorem find?_setStatus (st : OrderStatus) {l : List Order} {oid : Nat} {o : Order}
    (h : l.find? (fun x => decide (x.id = oid)) = some o) :
    (l.map fun x => if x.id = oid then { x with status := st } else x).find?
        (fun x => decide (x.id = oid)) = some { o with status := st } := by
  induction l with
  | nil => simp at h
  | cons a rest ih =>
    by_cases ha : a.id = oid
    · rw [List.find?_cons_of_pos _ (by simpa using ha)] at h
      injection h with h
      subst h
      simp only [List.map_cons]
      rw [if_pos ha]
      exact List.find?_cons_of_pos _ (by simpa using ha)
    · rw [List.find?_cons_of_neg _ (by simpa using ha)] at h
      simp only [List.map_cons]
      rw [if_neg ha]
      rw [List.find?_cons_of_neg _ (by simpa using ha)]
      exact ih h

/-- With no injected fault, `order.update` on a present id performs the
per-row status rewrite. -/
theorem orderUpdateStatus_noFault {l : List Order} {oid : Nat} (st : OrderStatus)
    (h : (l.any fun x => decide (x.id = oid)) = true) :
    orderUpdateStatus Fault.noFault l oid st
      = Except.ok (l.map fun x => if x.id = oid then { x with status := st } else x) := by
  simp [orderUpdateStatus, h]

/-- Filtering a replicate whose element passes the filter keeps the whole
length. -/
theorem length_filter_replicate_pos {α : Type} (p : α → Bool) (a : α) (h : p a = true) :
    ∀ n, ((List.replicate n a).filter p).length = n := by
  intro n
  induction n with
  | zero => rfl
  | succ k ih => simp [List.replicate_succ, List.filter_cons, h, ih]

/-- Delivering a checkout-completion for a not-yet-PAID order with no
fault marks the order PAID and appends one SUCCEEDED payment carrying the
order's captured amount. -/
theorem handleCheckoutComplete_not_paid {db : DB} {oid : Nat} {pid : String} {o : Order}
    (ho : findOrderById db oid = some o) (hp : ¬ o.status = OrderStatus.PAID) :
    handleCheckoutComplete Fault.noFault db (some oid) pid
      = ({ db with
            orders := db.orders.map fun x =>
              if x.id = oid then { x with status := OrderStatus.PAID } else x
            payments := db.payments
              ++ [{ orderId := oid, stripePaymentId := pid,
                    amount := o.totalAmount, status := PaymentStatus.SUCCEEDED }] },
         none) := by
  simp [handleCheckoutComplete, ho, hp, orderUpdateStatus_noFault _ (any_of_find? ho),
    paymentCreate]

/-- Same step at the `handleWebhook` level. -/
theorem handleWebhook_checkout_not_paid {db : DB} {oid : Nat} {pid : String} {o : Order}
    (ho : findOrderById db oid = some o) (hp : ¬ o.status = OrderStatus.PAID) :
    handleWebhook Fault.noFault db true (StripeEvent.checkoutSessionCompleted (some oid) pid)
      = ({ db with
            orders := db.orders.map fun x =>
              if x.id = oid then { x with status := OrderStatus.PAID } else x
            payments := db.payments
              ++ [{ orderId := oid, stripePaymentId := pid,
                    amount := o.totalAmount, status := PaymentStatus.SUCCEEDED }] },
         Except.ok { received := true }) := by
  simp [handleWebhook, handleCheckoutComplete_not_paid ho hp]

/-- Delivering a checkout-completion for an order already PAID is a
no-op that acknowledges the processor. -/
theorem handleWebhook_checkout_paid {db : DB} {oid : Nat} {pid : String} {o : Order}
    (ho : findOrderById db oid = some o) (hp : o.status = OrderStatus.PAID) :
    handleWebhook Fault.noFault db true (StripeEvent.checkoutSessionCompleted (some oid) pid)
      = (db, Except.ok { received := true }) := by
  simp [handleWebhook, handleCheckoutComplete, ho, hp]

/-- Repeated checkout-completion deliveries on a state whose order is
already PAID leave the state unchanged. -/
theorem iterateWebhook_checkout_paid_fix {db : DB} {oid : Nat} {pid : String} {o : Order}
    (ho : findOrderById db oid = some o) (hp : o.status = OrderStatus.PAID) :
    ∀ n, iterateWebhook (StripeEvent.checkoutSessionCompleted (some oid) pid) n db = db := by
  intro n
  induction n with
  | zero => rfl
  | succ k ih =>
    show iterateWebhook _ k _ = db
    rw [handleWebhook_checkout_paid ho hp]
    exact ih

/-- Delivering a payment failure for an existing order with no fault
marks the order FAILED — whatever its current status — and appends one
FAILED payment carrying the processor-reported cents divided by 100. -/
theorem handleWebhook_payment_failed_step {db : DB} {oid : Nat} {iid : String} {amt : Int}
    {o : Order} (ho : findOrderById db oid = some o) :
    handleWebhook Fault.noFault db true (StripeEvent.paymentIntentFailed (some oid) iid amt)
      = ({ db with
            orders := db.orders.map fun x =>
              if x.id = oid then { x with status := OrderStatus.FAILED } else x
            payments := db.payments
              ++ [{ orderId := oid, stripePaymentId := iid,
                    amount := (amt : Rat) / 100, status := PaymentStatus.FAILED }] },
         Except.ok { received := true }) := by
  simp [handleWebhook, handlePaymentFailed, orderUpdateStatus_noFault _ (any_of_find? ho),
    paymentCreate]

/-- A payment-failure delivery always acknowledges the processor: the
handler's `catch` swallows every internal error. -/
theorem handleWebhook_payment_failed_ack (fault : Fault) (db : DB) (moid : Option Nat)
    (iid : String) (amt : Int) :
    (handleWebhook fault db true (StripeEvent.paymentIntentFailed moid iid amt)).2
      = Except.ok { received := true } := by
  simp [handleWebhook]

/-- C1 — Idempotent settlement: from a state whose Order `oid` is
PENDING, `n ≥ 1` identical valid-signature checkout-completed deliveries
leave the Order PAID, create exactly one SUCCEEDED payment row for it
(the SUCCEEDED count rises by exactly one), every delivery from the
second on is a state no-op, and every delivery acknowledges with
`{received: true}`. -/
theorem checkout_settlement_idempotent (db : DB) (oid : Nat) (pid : String) (o : Order)
    (n : Nat) (ho : findOrderById db oid = some o) (hp : o.status = OrderStatus.PENDING)
    (hn : 1 ≤ n) :
    (∃ o2, findOrderById
        (iterateWebhook (StripeEvent.checkoutSessionCompleted (some oid) pid) n db) oid
          = some o2 ∧ o2.status = OrderStatus.PAID) ∧
    paymentCount (iterateWebhook (StripeEvent.checkoutSessionCompleted (some oid) pid) n db)
        oid PaymentStatus.SUCCEEDED
      = paymentCount db oid PaymentStatus.SUCCEEDED + 1 ∧
    (∀ k, 1 ≤ k →
      iterateWebhook (StripeEvent.checkoutSessionCompleted (some oid) pid) k db
        = iterateWebhook (StripeEvent.checkoutSessionCompleted (some oid) pid) 1 db) ∧
    (∀ k, (handleWebhook Fault.noFault
          (iterateWebhook (StripeEvent.checkoutSessionCompleted (some oid) pid) k db) true
          (StripeEvent.checkoutSessionCompleted (some oid) pid)).2
        = Except.ok { received := true }) := by
  have hnotpaid : ¬ o.status = OrderStatus.PAID := by simp [hp]
  have hstep := @handleWebhook_checkout_not_paid db oid pid o ho hnotpaid
  have hfind1 : findOrderById
      (handleWebhook Fault.noFault db true
        (StripeEvent.checkoutSessionCompleted (some oid) pid)).1 oid
      = some { o with status := OrderStatus.PAID } := by
    rw [hstep]
    exact find?_setStatus OrderStatus.PAID ho
  have hpc1 : paymentCount
      (handleWebhook Fault.noFault db true
        (StripeEvent.checkoutSessionCompleted (some oid) pid)).1 oid PaymentStatus.SUCCEEDED
      = paymentCount db oid PaymentStatus.SUCCEEDED + 1 := by
    rw [hstep]
    simp [paymentCount, List.filter_append]
  have honce : ∀ k,
      iterateWebhook (StripeEvent.checkoutSessionCompleted (some oid) pid) (k + 1) db
        = (handleWebhook Fault.noFault db true
            (StripeEvent.checkoutSessionCompleted (some oid) pid)).1 := by
    intro k
    show iterateWebhook _ k _ = _
    exact iterateWebhook_checkout_paid_fix hfind1 rfl k
  refine ⟨?_, ?_, ?_, ?_⟩
  · obtain ⟨m, rfl⟩ : ∃ m, n = m + 1 := ⟨n - 1, by omega⟩
    rw [honce m]
    exact ⟨_, hfind1, rfl⟩
  · obtain ⟨m, rfl⟩ : ∃ m, n = m + 1 := ⟨n - 1, by omega⟩
    rw [honce m]
    exact hpc1
  · intro k hk
    obtain ⟨m, rfl⟩ : ∃ m, k = m + 1 := ⟨k - 1, by omega⟩
    rw [honce m, honce 0]
  · intro k
    cases k with
    | zero =>
      show (handleWebhook Fault.noFault db true _).2 = _
      rw [hstep]
    | succ m =>
      rw [honce m, handleWebhook_checkout_paid hfind1 rfl]

/-- C1 witness: three identical deliveries on the concrete PENDING-order
state settle it exactly once. -/
theorem checkout_settlement_idempotent_witness :
    (∃ o2, findOrderById
        (iterateWebhook (StripeEvent.checkoutSessionCompleted (some 1) "pi_1") 3 dbPendingOrder)
          1 = some o2 ∧ o2.status = OrderStatus.PAID) ∧
    paymentCount
        (iterateWebhook (StripeEvent.checkoutSessionCompleted (some 1) "pi_1") 3 dbPendingOrder)
        1 PaymentStatus.SUCCEEDED
      = paymentCount dbPendingOrder 1 PaymentStatus.SUCCEEDED + 1 ∧
    (∀ k, 1 ≤ k →
      iterateWebhook (StripeEvent.checkoutSessionCompleted (some 1) "pi_1") k dbPendingOrder
        = iterateWebhook (StripeEvent.checkoutSessionCompleted (some 1) "pi_1") 1 dbPendingOrder) ∧
    (∀ k, (handleWebhook Fault.noFault
          (iterateWebhook (StripeEvent.checkoutSessionCompleted (some 1) "pi_1") k dbPendingOrder)
          true (StripeEvent.checkoutSessionCompleted (some 1) "pi_1")).2
        = Except.ok { received := true }) :=
  checkout_settlement_idempotent dbPendingOrder 1 "pi_1"
    { orderPaid with status := OrderStatus.PENDING } 3 rfl rfl (by omega)

/-- Each payment-failure delivery on a state whose order exists appends
one FAILED payment row and leaves the order FAILED (its previous status
for zero deliveries). -/
theorem iterate_payment_failed_aux (oid : Nat) (iid : String) (amt : Int) :
    ∀ (n : Nat) (db : DB) (o : Order), findOrderById db oid = some o →
      (iterateWebhook (StripeEvent.paymentIntentFailed (some oid) iid amt) n db).payments
          = db.payments ++ List.replicate n
              { orderId := oid, stripePaymentId := iid,
                amount := (amt : Rat) / 100, status := PaymentStatus.FAILED } ∧
      ∃ o2, findOrderById
          (iterateWebhook (StripeEvent.paymentIntentFailed (some oid) iid amt) n db) oid
        = some o2 ∧ o2.status = if n = 0 then o.status else OrderStatus.FAILED := by
  intro n
  induction n with
  | zero =>
    intro db o ho
    exact ⟨by simp [iterateWebhook], ⟨o, ho, by simp⟩⟩
  | succ k ih =>
    intro db o ho
    have hstep := @handleWebhook_payment_failed_step db oid iid amt o ho
    have hnext : findOrderById (handleWebhook Fault.noFault db true
        (StripeEvent.paymentIntentFailed (some oid) iid amt)).1 oid
        = some { o with status := OrderStatus.FAILED } := by
      rw [hstep]
      exact find?_setStatus OrderStatus.FAILED ho
    have hiter : iterateWebhook (StripeEvent.paymentIntentFailed (some oid) iid amt) (k + 1) db
        = iterateWebhook (StripeEvent.paymentIntentFailed (some oid) iid amt) k
            (handleWebhook Fault.noFault db true
              (StripeEvent.paymentIntentFailed (some oid) iid amt)).1 := rfl
    obtain ⟨hpay, o2, ho2, hst2⟩ := ih (handleWebhook Fault.noFault db true
        (StripeEvent.paymentIntentFailed (some oid) iid amt)).1 _ hnext
    constructor
    · rw [hiter, hpay, hstep]
      simp [List.replicate_succ]
    · refine ⟨o2, by rw [hiter]; exact ho2, ?_⟩
      rw [hst2]
      by_cases hk : k = 0 <;> simp [hk]

/-- C10 — No idempotency on the failure path: `n` identical
valid-signature payment-failed deliveries naming an existing Order append
`n` FAILED payment rows, each carrying the processor-reported amount
divided by 100; the FAILED-payment count rises by exactly `n`; the Order
ends FAILED with no check of its previous status; and every delivery is
acknowledged (errors on this path are swallowed for every fault). -/
theorem payment_failed_no_dedup (db : DB) (oid : Nat) (iid : String) (amt : Int) (o : Order)
    (n : Nat) (ho : findOrderById db oid = some o) (hn : 1 ≤ n) :
    (iterateWebhook (StripeEvent.paymentIntentFailed (some oid) iid amt) n db).payments
        = db.payments ++ List.replicate n
            { orderId := oid, stripePaymentId := iid,
              amount := (amt : Rat) / 100, status := PaymentStatus.FAILED } ∧
    paymentCount (iterateWebhook (StripeEvent.paymentIntentFailed (some oid) iid amt) n db)
        oid PaymentStatus.FAILED
      = paymentCount db oid PaymentStatus.FAILED + n ∧
    (∃ o2, findOrderById
        (iterateWebhook (StripeEvent.paymentIntentFailed (some oid) iid amt) n db) oid
      = some o2 ∧ o2.status = OrderStatus.FAILED) ∧
    (∀ (fault : Fault) (db2 : DB) (moid : Option Nat),
      (handleWebhook fault db2 true (StripeEvent.paymentIntentFailed moid iid amt)).2
        = Except.ok { received := true }) := by
  obtain ⟨hpay, o2, ho2, hst⟩ := iterate_payment_failed_aux oid iid amt n db o ho
  refine ⟨hpay, ?_, ⟨o2, ho2, ?_⟩, ?_⟩
  · simp only [paymentCount]
    rw [hpay, List.filter_append, List.length_append]
    congr 1
    exact length_filter_replicate_pos _ _ (by simp) n
  · rw [hst, if_neg (by omega)]
  · intro fault db2 moid
    exact handleWebhook_payment_failed_ack fault db2 moid iid amt

/-- C10 witness: three payment-failed deliveries on the concrete
PAID-order state append three FAILED payment rows. -/
theorem payment_failed_no_dedup_witness :
    (iterateWebhook (StripeEvent.paymentIntentFailed (some 1) "pi_9" 2999) 3 dbPaidOrder).payments
        = dbPaidOrder.payments ++ List.replicate 3
            { orderId := 1, stripePaymentId := "pi_9",
              amount := ((2999 : Int) : Rat) / 100, status := PaymentStatus.FAILED } ∧
    paymentCount
        (iterateWebhook (StripeEvent.paymentIntentFailed (some 1) "pi_9" 2999) 3 dbPaidOrder)
        1 PaymentStatus.FAILED
      = paymentCount dbPaidOrder 1 PaymentStatus.FAILED + 3 ∧
    (∃ o2, findOrderById
        (iterateWebhook (StripeEvent.paymentIntentFailed (some 1) "pi_9" 2999) 3 dbPaidOrder) 1
      = some o2 ∧ o2.status = OrderStatus.FAILED) ∧
    (∀ (fault : Fault) (db2 : DB) (moid : Option Nat),
      (handleWebhook fault db2 true (StripeEvent.paymentIntentFailed moid "pi_9" 2999)).2
        = Except.ok { received := true }) :=
  payment_failed_no_dedup dbPaidOrder 1 "pi_9" 2999 orderPaid 3 rfl (by omega)

/-- C2 counterexample: on a concrete state whose Order is already PAID, a
valid-signature payment-failed delivery moves the Order to FAILED — PAID
is not terminal, contradicting the claim that the event would leave it
PAID. -/
theorem paid_order_flipped_by_failure_cex :
    (findOrderById
        (handleWebhook Fault.noFault dbPaidOrder true
          (StripeEvent.paymentIntentFailed (some 1) "pi_9" 2999)).1 1).map Order.status
      = some OrderStatus.FAILED ∧
    OrderStatus.FAILED ≠ OrderStatus.PAID :=
  ⟨rfl, by decide⟩

/-- C2 amended — Only the checkout-completed path checks the current
status: a checkout-completed delivery on a PAID Order is a state no-op
returning success, but a payment-failed delivery moves any existing Order
— including a PAID one — to FAILED, and a checkout-completed delivery
moves a FAILED Order back to PAID. -/
theorem webhook_terminal_states_amended (db : DB) (oid : Nat) (pid iid : String) (amt : Int)
    (o : Order) (ho : findOrderById db oid = some o) :
    (o.status = OrderStatus.PAID →
      handleWebhook Fault.noFault db true (StripeEvent.checkoutSessionCompleted (some oid) pid)
        = (db, Except.ok { received := true })) ∧
    (∃ o2, findOrderById
        (handleWebhook Fault.noFault db true
          (StripeEvent.paymentIntentFailed (some oid) iid amt)).1 oid
      = some o2 ∧ o2.status = OrderStatus.FAILED) ∧
    (o.status = OrderStatus.FAILED →
      ∃ o2, findOrderById
          (handleWebhook Fault.noFault db true
            (StripeEvent.checkoutSessionCompleted (some oid) pid)).1 oid
        = some o2 ∧ o2.status = OrderStatus.PAID) := by
  refine ⟨?_, ?_, ?_⟩
  · intro hp
    exact handleWebhook_checkout_paid ho hp
  · rw [handleWebhook_payment_failed_step ho]
    exact ⟨_, find?_setStatus OrderStatus.FAILED ho, rfl⟩
  · intro hf
    have hnp : ¬ o.status = OrderStatus.PAID := by simp [hf]
    rw [handleWebhook_checkout_not_paid ho hnp]
    exact ⟨_, find?_setStatus OrderStatus.PAID ho, rfl⟩

/-- C2 witness: the amended statement instantiated on the concrete
PAID-order state. -/
theorem webhook_terminal_states_amended_witness :
    (orderPaid.status = OrderStatus.PAID →
      handleWebhook Fault.noFault dbPaidOrder true
          (StripeEvent.checkoutSessionCompleted (some 1) "pi_1")
        = (dbPaidOrder, Except.ok { received := true })) ∧
    (∃ o2, findOrderById
        (handleWebhook Fault.noFault dbPaidOrder true
          (StripeEvent.paymentIntentFailed (some 1) "pi_9" 2999)).1 1
      = some o2 ∧ o2.status = OrderStatus.FAILED) ∧
    (orderPaid.status = OrderStatus.FAILED →
      ∃ o2, findOrderById
          (handleWebhook Fault.noFault dbPaidOrder true
            (StripeEvent.checkoutSessionCompleted (some 1) "pi_1")).1 1
        = some o2 ∧ o2.status = OrderStatus.PAID) :=
  webhook_terminal_states_amended dbPaidOrder 1 "pi_1" "pi_9" 2999 orderPaid rfl

/-- C3 counterexample: a payload passing signature verification (a
checkout-completed event) whose payment insertion fails at runtime makes
`handleWebhook` throw the internal error instead of returning
`{received: true}` — the checkout-completion handler and the webhook
handler both rethrow. -/
theorem webhook_internal_error_escapes_cex :
    (handleWebhook Fault.failPaymentCreate dbPendingOrder true
        (StripeEvent.checkoutSessionCompleted (some 1) "pi_1")).2
      = Except.error ApiError.Internal ∧
    (Except.error ApiError.Internal : Except ApiError Ack)
      ≠ Except.ok { received := true } :=
  ⟨rfl, fun h => Except.noConfusion h⟩

/-- C3 amended — `handleWebhook` throws on signature-verification failure
and also rethrows any unexpected internal error raised while processing a
checkout-completed event; every other delivery returns `{received: true}`:
unrecognized event types, bare payment-intent-succeeded signals,
checkout-completed events with missing metadata or an unknown Order id
(for every fault), and payment-failed events (whose handler swallows
every internal error). -/
theorem webhook_rejection_amended (fault : Fault) (db : DB) :
    (∀ ev, handleWebhook fault db false ev
        = (db, Except.error (ApiError.BadRequest "Invalid webhook signature"))) ∧
    (∀ s, handleWebhook fault db true (StripeEvent.otherEvent s)
        = (db, Except.ok { received := true })) ∧
    (∀ s, handleWebhook fault db true (StripeEvent.paymentIntentSucceeded s)
        = (db, Except.ok { received := true })) ∧
    (∀ pid, handleWebhook fault db true (StripeEvent.checkoutSessionCompleted none pid)
        = (db, Except.ok { received := true })) ∧
    (∀ oid pid, findOrderById db oid = none →
      handleWebhook fault db true (StripeEvent.checkoutSessionCompleted (some oid) pid)
        = (db, Except.ok { received := true })) ∧
    (∀ moid iid amt,
      (handleWebhook fault db true (StripeEvent.paymentIntentFailed moid iid amt)).2
        = Except.ok { received := true }) := by
  refine ⟨?_, ?_, ?_, ?_, ?_, ?_⟩
  · intro ev
    simp [handleWebhook]
  · intro s
    simp [handleWebhook]
  · intro s
    simp [handleWebhook]
  · intro pid
    simp [handleWebhook, handleCheckoutComplete]
  · intro oid pid hnone
    simp [handleWebhook, handleCheckoutComplete, hnone]
  · intro moid iid amt
    exact handleWebhook_payment_failed_ack fault db moid iid amt

/-- C3 witness: a checkout-completed delivery naming an unknown Order id
on the concrete state acknowledges without error. -/
theorem webhook_rejection_amended_witness :
    handleWebhook Fault.noFault dbPaidOrder true
        (StripeEvent.checkoutSessionCompleted (some 99) "pi_x")
      = (dbPaidOrder, Except.ok { received := true }) :=
  (webhook_rejection_amended Fault.noFault dbPaidOrder).2.2.2.2.1 99 "pi_x" rfl

/-- C4 — Entitlement gate soundness: whenever no PAID order exists for
the resolved user and the requested asset, `generateDownloadUrl` fails,
and the failure is Forbidden or NotFound; contrapositively it can return
a signed URL only when a PAID order for the exact (user, asset) pair
exists. -/
theorem entitlement_gate (db : DB) (now : Int) (auth0Id : String) (assetId : Nat)
    (expirationSeconds : Option Nat)
    (h : ∀ u, findUserByAuth0Id db auth0Id = some u →
         ∀ o ∈ db.orders,
           ¬ (o.userId = u.id ∧ o.assetId = assetId ∧ o.status = OrderStatus.PAID)) :
    ∃ e, generateDownloadUrl db now auth0Id assetId expirationSeconds = Except.error e
      ∧ e.isForbiddenOrNotFound = true := by
  cases hu : findUserByAuth0Id db auth0Id with
  | none =>
    exact ⟨ApiError.NotFound "User not found", by simp [generateDownloadUrl, hu], rfl⟩
  | some u =>
    cases ha : findAssetById db assetId with
    | none =>
      exact ⟨ApiError.NotFound "Asset not found", by simp [generateDownloadUrl, hu, ha], rfl⟩
    | some a =>
      by_cases hdel : a.deletedAt.isSome = true
      · exact ⟨ApiError.NotFound "This asset has been removed",
          by simp [generateDownloadUrl, hu, ha, hdel], rfl⟩
      · cases hlo : latestOrderFor db u.id a.id with
        | none =>
          exact ⟨ApiError.Forbidden "You do not own this asset",
            by simp [generateDownloadUrl, hu, ha, hdel, hlo], rfl⟩
        | some o =>
          have haid := findAssetById_id ha
          have hspec := latestOrderFor_spec hlo
          cases hst : o.status with
          | PENDING =>
            exact ⟨ApiError.Forbidden
                "Payment not confirmed yet. Please wait for payment confirmation.",
              by simp [generateDownloadUrl, hu, ha, hdel, hlo, hst], rfl⟩
          | FAILED =>
            exact ⟨ApiError.Forbidden "Payment failed. Please purchase the asset again.",
              by simp [generateDownloadUrl, hu, ha, hdel, hlo, hst], rfl⟩
          | PAID =>
            exact absurd ⟨hspec.2.1, haid ▸ hspec.2.2, hst⟩ (h u hu o hspec.1)

/-- C4 witness: on the concrete state with no orders at all, the call
fails with a Forbidden or NotFound error. -/
theorem entitlement_gate_witness :
    ∃ e, generateDownloadUrl dbFresh 1000 "auth0|alice" 10 none = Except.error e
      ∧ e.isForbiddenOrNotFound = true :=
  entitlement_gate dbFresh 1000 "auth0|alice" 10 none
    (by
      intro u hu o ho
      simp [dbFresh] at ho)

/-- C5 — Latest-order gating versus any-PAID entitlement: on the
concrete state holding an older PAID order and a newer PENDING order for
the same (user, asset) pair, `generateDownloadUrl` consults only the most
recent order and fails Forbidden with the payment-not-confirmed message,
while `canDownload` returns true because a PAID order exists. -/
theorem latest_order_gating :
    generateDownloadUrl dbLatestPending 1000000 "auth0|alice" 10 none
      = Except.error (ApiError.Forbidden
          "Payment not confirmed yet. Please wait for payment confirmation.") ∧
    canDownload dbLatestPending "auth0|alice" 10 = true :=
  ⟨rfl, rfl⟩

/-- With a resolvable user, a live asset, a PAID latest order, headroom
in the rate window, and an expiry within the maximum,
`generateDownloadUrl` returns the signed URL, logs the download and bumps
the counter. -/
theorem generateDownloadUrl_success (db : DB) (now : Int) (auth0Id : String) (assetId : Nat)
    (expirationSeconds : Option Nat) (u : User) (a : Asset) (o : Order)
    (hu : findUserByAuth0Id db auth0Id = some u)
    (ha : findAssetById db assetId = some a)
    (hdel : a.deletedAt = none)
    (hlo : latestOrderFor db u.id a.id = some o)
    (hst : o.status = OrderStatus.PAID)
    (hrl : countRecentDownloads db u.id a.id (now - 60 * 60 * 1000) < MAX_DOWNLOADS_PER_HOUR)
    (hexp : jsOrDefault expirationSeconds DEFAULT_EXPIRATION ≤ MAX_EXPIRATION) :
    generateDownloadUrl db now auth0Id assetId expirationSeconds
      = Except.ok
          ({ url := presignedUrl a.sourceFileKey (jsOrDefault expirationSeconds DEFAULT_EXPIRATION)
             expiresAt := now + (jsOrDefault expirationSeconds DEFAULT_EXPIRATION : Int) * 1000
             expiresIn := jsOrDefault expirationSeconds DEFAULT_EXPIRATION
             assetId := a.id
             assetTitle := a.title
             assetCategory := a.category
             assetVendor := a.vendorName },
           { db with
               downloads := db.downloads
                 ++ [{ userId := u.id, assetId := a.id, createdAt := now }]
               assets := incrementAssetDownloads db.assets a.id }) := by
  have h36 : now - 60 * 60 * 1000 = now - 3600000 := by norm_num
  rw [h36] at hrl
  simp [generateDownloadUrl, hu, ha, hdel, hlo, hst, Nat.not_le.mpr hrl, Nat.not_lt.mpr hexp]

/-- C6 counterexample: on the concrete state with five downloads created
at time 0, the request at time 3600000 — when the oldest download is
exactly 3600 seconds old — still fails Conflict (the `gte` filter counts
it), while the request one millisecond later succeeds; the claimed
boundary, that a row exactly 3600 seconds old no longer counts, fails. -/
theorem rate_limit_boundary_cex :
    generateDownloadUrl dbRateLimited 3600000 "auth0|alice" 10 none
      = Except.error (ApiError.Conflict
          "Download limit exceeded. You can download this asset 5 times per hour. Please try again later.") ∧
    (∃ x, generateDownloadUrl dbRateLimited 3600001 "auth0|alice" 10 none = Except.ok x) :=
  ⟨rfl, ⟨_, rfl⟩⟩

/-- C6 amended — Sliding window with an inclusive boundary: under the
ownership preconditions, the request fails Conflict exactly when five or
more Download rows for the pair have `createdAt ≥ now − 3600s` — a row
exactly 3600 seconds old still counts — and succeeds once fewer than five
rows remain in the window, i.e. strictly after the window elapses
relative to the oldest counted download. -/
theorem rate_limit_sliding_window_amended (db : DB) (now : Int) (auth0Id : String)
    (assetId : Nat) (u : User) (a : Asset) (o : Order)
    (hu : findUserByAuth0Id db auth0Id = some u)
    (ha : findAssetById db assetId = some a)
    (hdel : a.deletedAt = none)
    (hlo : latestOrderFor db u.id a.id = some o)
    (hst : o.status = OrderStatus.PAID) :
    (MAX_DOWNLOADS_PER_HOUR ≤ countRecentDownloads db u.id a.id (now - 60 * 60 * 1000) →
      generateDownloadUrl db now auth0Id assetId none
        = Except.error (ApiError.Conflict
            "Download limit exceeded. You can download this asset 5 times per hour. Please try again later.")) ∧
    (countRecentDownloads db u.id a.id (now - 60 * 60 * 1000) < MAX_DOWNLOADS_PER_HOUR →
      ∃ x, generateDownloadUrl db now auth0Id assetId none = Except.ok x) := by
  constructor
  · intro hc
    have h36 : now - 60 * 60 * 1000 = now - 3600000 := by norm_num
    rw [h36] at hc
    simp [generateDownloadUrl, hu, ha, hdel, hlo, hst, hc]
  · intro hc
    exact ⟨_, generateDownloadUrl_success db now auth0Id assetId none u a o
      hu ha hdel hlo hst hc (by decide)⟩

/-- C6 witness: one millisecond after the boundary, the five old rows no
longer count and the request on the concrete state succeeds. -/
theorem rate_limit_sliding_window_amended_witness :
    ∃ x, generateDownloadUrl dbRateLimited 3600001 "auth0|alice" 10 none = Except.ok x :=
  (rate_limit_sliding_window_amended dbRateLimited 3600001 "auth0|alice" 10 userAlice
    assetBrick orderPaid rfl rfl rfl rfl rfl).2 (by decide)

/-- C7 — Expiry bounds at the endpoint (DTO validation, then service):
`expirationSeconds = 59` fails BadRequest (the DTO's `@Min(60)`); 60 and
3600 succeed; 3601 fails BadRequest (the service's maximum — the DTO has
no `@Max`); an omitted value defaults to 300 and the response reports
`expiresIn = 300`, all under the ownership and rate-limit
preconditions. -/
theorem expiry_bounds (db : DB) (now : Int) (auth0Id : String) (assetId : Nat)
    (u : User) (a : Asset) (o : Order)
    (hu : findUserByAuth0Id db auth0Id = some u)
    (ha : findAssetById db assetId = some a)
    (hdel : a.deletedAt = none)
    (hlo : latestOrderFor db u.id a.id = some o)
    (hst : o.status = OrderStatus.PAID)
    (hrl : countRecentDownloads db u.id a.id (now - 60 * 60 * 1000) < MAX_DOWNLOADS_PER_HOUR) :
    (generateDownloadEndpoint db now auth0Id assetId (some 59)
        = Except.error (ApiError.BadRequest "Expiration must be at least 60 seconds")) ∧
    (∃ x, generateDownloadEndpoint db now auth0Id assetId (some 60) = Except.ok x) ∧
    (∃ x, generateDownloadEndpoint db now auth0Id assetId (some 3600) = Except.ok x) ∧
    (generateDownloadEndpoint db now auth0Id assetId (some 3601)
        = Except.error (ApiError.BadRequest "Expiration cannot exceed 3600 seconds (60 minutes)")) ∧
    (∃ r db2, generateDownloadEndpoint db now auth0Id assetId none = Except.ok (r, db2)
        ∧ r.expiresIn = 300) := by
  refine ⟨rfl, ?_, ?_, ?_, ?_⟩
  · exact ⟨_, generateDownloadUrl_success db now auth0Id assetId (some 60) u a o
      hu ha hdel hlo hst hrl (by decide)⟩
  · exact ⟨_, generateDownloadUrl_success db now auth0Id assetId (some 3600) u a o
      hu ha hdel hlo hst hrl (by decide)⟩
  · show generateDownloadUrl db now auth0Id assetId (some 3601) = _
    have h36 : now - 60 * 60 * 1000 = now - 3600000 := by norm_num
    rw [h36] at hrl
    simp [generateDownloadUrl, hu, ha, hdel, hlo, hst, Nat.not_le.mpr hrl, jsOrDefault,
      MAX_EXPIRATION]
  · exact ⟨_, _, generateDownloadUrl_success db now auth0Id assetId none u a o
      hu ha hdel hlo hst hrl (by decide), rfl⟩

/-- C7 witness: the five expiry outcomes on the concrete PAID-order
state. -/
theorem expiry_bounds_witness :
    (generateDownloadEndpoint dbPaidOrder 1000 "auth0|alice" 10 (some 59)
        = Except.error (ApiError.BadRequest "Expiration must be at least 60 seconds")) ∧
    (∃ x, generateDownloadEndpoint dbPaidOrder 1000 "auth0|alice" 10 (some 60) = Except.ok x) ∧
    (∃ x, generateDownloadEndpoint dbPaidOrder 1000 "auth0|alice" 10 (some 3600) = Except.ok x) ∧
    (generateDownloadEndpoint dbPaidOrder 1000 "auth0|alice" 10 (some 3601)
        = Except.error (ApiError.BadRequest "Expiration cannot exceed 3600 seconds (60 minutes)")) ∧
    (∃ r db2, generateDownloadEndpoint dbPaidOrder 1000 "auth0|alice" 10 none
        = Except.ok (r, db2) ∧ r.expiresIn = 300) :=
  expiry_bounds dbPaidOrder 1000 "auth0|alice" 10 userAlice assetBrick orderPaid
    rfl rfl rfl rfl rfl (by decide)

/-- C8 counterexample: on the concrete state whose only asset is ACTIVE
but soft-deleted, checkout-creation rejects it with BadRequest while a
non-existent asset id gets NotFound — the two are distinguishable, and
only download-issuance maps the soft-deleted asset to NotFound. -/
theorem soft_delete_checkout_cex :
    createCheckoutSession dbDeletedAsset 1000 "auth0|alice" 11
      = Except.error (ApiError.BadRequest "Asset has been deleted") ∧
    createCheckoutSession dbDeletedAsset 1000 "auth0|alice" 99
      = Except.error (ApiError.NotFound "Asset not found") ∧
    generateDownloadUrl dbDeletedAsset 1000 "auth0|alice" 11 none
      = Except.error (ApiError.NotFound "This asset has been removed") ∧
    ApiError.BadRequest "Asset has been deleted" ≠ ApiError.NotFound "Asset not found" :=
  ⟨rfl, rfl, rfl, fun h => ApiError.noConfusion h⟩

/-- C8 amended — Soft-delete opacity holds only for download-issuance:
for a resolvable user and a soft-deleted asset,
`generateDownloadUrl` fails NotFound (the same kind a non-existent id
produces), but `createCheckoutSession` fails BadRequest (whether via the
not-ACTIVE check or the deleted-asset check), a kind distinguishable from
the NotFound of a non-existent id. -/
theorem soft_delete_opacity_amended (db : DB) (now : Int) (auth0Id : String) (assetId : Nat)
    (u : User) (a : Asset) (e : Option Nat)
    (hu : findUserByAuth0Id db auth0Id = some u)
    (ha : findAssetById db assetId = some a)
    (hdel : a.deletedAt.isSome = true) :
    (∃ m, generateDownloadUrl db now auth0Id assetId e
        = Except.error (ApiError.NotFound m)) ∧
    (∃ m, createCheckoutSession db now auth0Id assetId
        = Except.error (ApiError.BadRequest m)) := by
  constructor
  · exact ⟨"This asset has been removed", by simp [generateDownloadUrl, hu, ha, hdel]⟩
  · by_cases hact : a.status = AssetStatus.ACTIVE
    · exact ⟨"Asset has been deleted", by simp [createCheckoutSession, hu, ha, hact, hdel]⟩
    · exact ⟨"Asset is not available for purchase",
        by simp [createCheckoutSession, hu, ha, hact]⟩

/-- C8 witness: the amended statement on the concrete soft-deleted-asset
state. -/
theorem soft_delete_opacity_amended_witness :
    (∃ m, generateDownloadUrl dbDeletedAsset 1000 "auth0|alice" 11 none
        = Except.error (ApiError.NotFound m)) ∧
    (∃ m, createCheckoutSession dbDeletedAsset 1000 "auth0|alice" 11
        = Except.error (ApiError.BadRequest m)) :=
  soft_delete_opacity_amended dbDeletedAsset 1000 "auth0|alice" 11 userAlice assetGone none
    rfl rfl rfl

/-- With every precondition satisfied, `createCheckoutSession` creates a
PENDING order priced at the asset's current price, mints the session and
persists its id onto the order. -/
theorem createCheckoutSession_success (db : DB) (now : Int) (auth0Id : String) (assetId : Nat)
    (u : User) (a : Asset)
    (hu : findUserByAuth0Id db auth0Id = some u)
    (ha : findAssetById db assetId = some a)
    (hact : a.status = AssetStatus.ACTIVE)
    (hd : a.deletedAt = none)
    (hv : a.vendorId ≠ u.id)
    (hnp : findPaidOrder db u.id a.id = none) :
    createCheckoutSession db now auth0Id assetId
      = Except.ok
          ({ sessionId := (stripeSessionFor db.nextOrderId).1,
             url := (stripeSessionFor db.nextOrderId).2, orderId := db.nextOrderId },
           { db with
               orders := (db.orders ++ [newPendingOrder db now u.id a.id a.price]).map
                 (attachSessionId db.nextOrderId (stripeSessionFor db.nextOrderId).1)
               nextOrderId := db.nextOrderId + 1 }) := by
  simp [createCheckoutSession, hu, ha, hact, hd, hv, hnp, newPendingOrder]

/-- C9 — Checkout preconditions in source order, given a resolvable
buyer: a missing asset gives NotFound; a not-ACTIVE or soft-deleted asset
gives BadRequest; the asset's own vendor always gets BadRequest whatever
the asset's status; an existing PAID order for the pair gives Conflict
once the earlier checks pass; and with no PAID order the call succeeds —
regardless of any recent PENDING order — creating a new PENDING order at
the asset's current price. -/
theorem checkout_preconditions (db : DB) (now : Int) (auth0Id : String) (assetId : Nat)
    (u : User) (hu : findUserByAuth0Id db auth0Id = some u) :
    (findAssetById db assetId = none →
      createCheckoutSession db now auth0Id assetId
        = Except.error (ApiError.NotFound "Asset not found")) ∧
    (∀ a, findAssetById db assetId = some a →
      (a.status ≠ AssetStatus.ACTIVE ∨ a.deletedAt.isSome = true) →
      ∃ m, createCheckoutSession db now auth0Id assetId
        = Except.error (ApiError.BadRequest m)) ∧
    (∀ a, findAssetById db assetId = some a → a.vendorId = u.id →
      ∃ m, createCheckoutSession db now auth0Id assetId
        = Except.error (ApiError.BadRequest m)) ∧
    (∀ a, findAssetById db assetId = some a → a.status = AssetStatus.ACTIVE →
      a.deletedAt = none → a.vendorId ≠ u.id → (findPaidOrder db u.id a.id).isSome = true →
      createCheckoutSession db now auth0Id assetId
        = Except.error (ApiError.Conflict "You already own this asset")) ∧
    (∀ a, findAssetById db assetId = some a → a.status = AssetStatus.ACTIVE →
      a.deletedAt = none → a.vendorId ≠ u.id → findPaidOrder db u.id a.id = none →
      ∃ r db2, createCheckoutSession db now auth0Id assetId = Except.ok (r, db2)
        ∧ r.orderId = db.nextOrderId
        ∧ ∃ o2 ∈ db2.orders, o2.id = db.nextOrderId ∧ o2.userId = u.id ∧ o2.assetId = a.id
            ∧ o2.status = OrderStatus.PENDING ∧ o2.totalAmount = a.price) := by
  refine ⟨?_, ?_, ?_, ?_, ?_⟩
  · intro hnone
    simp [createCheckoutSession, hu, hnone]
  · intro a ha hbad
    by_cases hact : a.status = AssetStatus.ACTIVE
    · rcases hbad with hs | hd
      · exact absurd hact hs
      · exact ⟨"Asset has been deleted", by simp [createCheckoutSession, hu, ha, hact, hd]⟩
    · exact ⟨"Asset is not available for purchase",
        by simp [createCheckoutSession, hu, ha, hact]⟩
  · intro a ha hv
    by_cases hact : a.status = AssetStatus.ACTIVE
    · by_cases hd : a.deletedAt.isSome = true
      · exact ⟨"Asset has been deleted", by simp [createCheckoutSession, hu, ha, hact, hd]⟩
      · exact ⟨"You cannot purchase your own asset",
          by simp [createCheckoutSession, hu, ha, hact, hd, hv]⟩
    · exact ⟨"Asset is not available for purchase",
        by simp [createCheckoutSession, hu, ha, hact]⟩
  · intro a ha hact hd hv hpaid
    simp [createCheckoutSession, hu, ha, hact, hd, hv, hpaid]
  · intro a ha hact hd hv hnp
    refine ⟨_, _,
      createCheckoutSession_success db now auth0Id assetId u a hu ha hact hd hv hnp,
      rfl, ?_⟩
    have horder : attachSessionId db.nextOrderId (stripeSessionFor db.nextOrderId).1
        (newPendingOrder db now u.id a.id a.price)
        = { newPendingOrder db now u.id a.id a.price with
            stripeSessionId := some (stripeSessionFor db.nextOrderId).1 } := by
      simp [attachSessionId, newPendingOrder]
    refine ⟨{ newPendingOrder db now u.id a.id a.price with
              stripeSessionId := some (stripeSessionFor db.nextOrderId).1 },
            ?_, rfl, rfl, rfl, rfl, rfl⟩
    have hmem : newPendingOrder db now u.id a.id a.price
        ∈ db.orders ++ [newPendingOrder db now u.id a.id a.price] :=
      List.mem_append_right _ (List.mem_singleton_self _)
    have hm2 := List.mem_map_of_mem
      (attachSessionId db.nextOrderId (stripeSessionFor db.nextOrderId).1) hmem
    rw [horder] at hm2
    exact hm2

/-- C9 witness: on the concrete fresh state, checkout succeeds and
creates the PENDING order. -/
theorem checkout_preconditions_witness :
    ∃ r db2, createCheckoutSession dbFresh 1000 "auth0|alice" 10 = Except.ok (r, db2)
      ∧ r.orderId = dbFresh.nextOrderId
      ∧ ∃ o2 ∈ db2.orders, o2.id = dbFresh.nextOrderId ∧ o2.userId = userAlice.id
          ∧ o2.assetId = assetBrick.id ∧ o2.status = OrderStatus.PENDING
          ∧ o2.totalAmount = assetBrick.price :=
  (checkout_preconditions dbFresh 1000 "auth0|alice" 10 userAlice rfl).2.2.2.2 assetBrick
    rfl rfl rfl (by decide) rfl
